import Mathlib

/-!
Verification of the taxbot Solana tax-calculator server.

The definitions below are shallow embeddings of the JavaScript source:

* `taxSummaryOf`, `processServerTx`, `processLoop`, `handleTransactions`
  embed the `/api/transactions/:address` endpoint of `src/server/index.js`
  (lines 295-454): per-signature processing, the tax-summary reduction and
  the address-validation gate.
* `analyzeTransaction` embeds the standalone classifier of
  `src/server/index.js` lines 190-288.
* `getTokenAccountsByOwner` embeds `src/server/index.js` lines 151-188.
* `getTokenPrice001` embeds the TTL price cache of the variant server
  (`src/unnamed/part_001` lines 42-67).
* `retryFetch` and its wrappers embed the bounded retry loops of the variant
  server (`src/unnamed/part_002` lines 114-133 and 239-285).

JavaScript numbers are modelled by `ℚ` (exact arithmetic); lamport amounts
by `ℤ`/`ℕ`.  `arr[0]` on a possibly-empty JS array is modelled by `getD 0`;
an out-of-range native-balance index, which in JS produces `NaN` and hence
falsifies every comparison, is modelled by an explicit `Option` match.
-/

namespace Taxbot

/-- One entry of `meta.preTokenBalances` / `meta.postTokenBalances`. -/
structure TokenBalance where
  accountIndex : ℕ
  mint : String
  uiAmount : ℚ
deriving DecidableEq, Repr

/-- One element of an event's `inTokens` / `outTokens` arrays. -/
structure TokenFlow where
  mint : String
  amount : ℚ
  usdValue : ℚ
deriving DecidableEq, Repr

/-- One element of `tx.meta.innerInstructions[i].instructions`. -/
structure InnerIx where
  program : String
  parsedType : Option String
deriving DecidableEq, Repr

/-- The fields of a parsed transaction read by the endpoint's inline
processing loop (`src/server/index.js` lines 329-415). -/
structure ServerTx where
  blockTime : Option ℕ
  fee : ℕ
  preBalances : List ℤ
  postBalances : List ℤ
  preTokenBalances : List TokenBalance
  postTokenBalances : List TokenBalance
  innerInstructions : List (List InnerIx)
deriving DecidableEq, Repr

/-- The record pushed onto `transactions` by the endpoint
(`src/server/index.js` lines 403-411). -/
structure ProcessedTx where
  signature : String
  timestamp : ℕ
  type : String
  inTokens : List TokenFlow
  outTokens : List TokenFlow
  fees : ℚ
  profit : ℚ
deriving DecidableEq, Repr

/-- `tx.meta?.innerInstructions?.some(ix => ix.instructions.some(i =>
i.program === 'spl-token' && i.parsed?.type === 'transfer'))`
(`src/server/index.js` lines 345-347). -/
def isInnerSwap (tx : ServerTx) : Bool :=
  tx.innerInstructions.any fun ixs =>
    ixs.any fun i => i.program == "spl-token" && i.parsedType == some "transfer"

/-- The endpoint's inline per-transaction processing
(`src/server/index.js` lines 337-411). -/
def processServerTx (solPrice : ℚ) (now : ℕ) (sig : String) (tx : ServerTx) :
    ProcessedTx :=
  let timestamp := tx.blockTime.getD now
  let fees : ℚ := (tx.fee : ℚ) / 1000000000
  if isInnerSwap tx then
    let inTokens := tx.postTokenBalances.filterMap fun post =>
      match tx.preTokenBalances.find? (fun b => b.accountIndex == post.accountIndex) with
      | none => some ⟨post.mint, post.uiAmount, 0⟩
      | some pre =>
        if pre.uiAmount < post.uiAmount then
          some ⟨post.mint, post.uiAmount - pre.uiAmount, 0⟩
        else none
    let outTokens := tx.preTokenBalances.filterMap fun pre =>
      match tx.postTokenBalances.find? (fun b => b.accountIndex == pre.accountIndex) with
      | none => some ⟨pre.mint, pre.uiAmount, 0⟩
      | some post =>
        if post.uiAmount < pre.uiAmount then
          some ⟨pre.mint, pre.uiAmount - post.uiAmount, 0⟩
        else none
    let solChange : ℚ :=
      ((tx.postBalances.getD 0 0 - tx.preBalances.getD 0 0 : ℤ) : ℚ) / 1000000000
    { signature := sig, timestamp := timestamp, type := "SWAP",
      inTokens := inTokens, outTokens := outTokens, fees := fees,
      profit := solChange * solPrice }
  else if tx.preBalances.getD 0 0 ≠ tx.postBalances.getD 0 0 then
    let solChange : ℚ :=
      ((tx.postBalances.getD 0 0 - tx.preBalances.getD 0 0 : ℤ) : ℚ) / 1000000000
    if 0 < solChange then
      { signature := sig, timestamp := timestamp, type := "SOL_TRANSFER",
        inTokens := [⟨"SOL", solChange, solChange * solPrice⟩], outTokens := [],
        fees := fees, profit := 0 }
    else
      { signature := sig, timestamp := timestamp, type := "SOL_TRANSFER",
        inTokens := [], outTokens := [⟨"SOL", -solChange, (-solChange) * solPrice⟩],
        fees := fees, profit := 0 }
  else
    { signature := sig, timestamp := timestamp, type := "TRANSFER",
      inTokens := [], outTokens := [], fees := fees, profit := 0 }

/-- The `{totalIncome, capitalGains, totalFees, taxLiability}` object of
`src/server/index.js` lines 418-423. -/
structure TaxSummary where
  totalIncome : ℚ
  capitalGains : ℚ
  totalFees : ℚ
  taxLiability : ℚ
deriving DecidableEq, Repr

/-- One iteration of the income/gains loop
(`src/server/index.js` lines 426-434), acting on the
`(totalIncome, capitalGains)` accumulator. -/
def incomeGainsStep (acc : ℚ × ℚ) (t : ProcessedTx) : ℚ × ℚ :=
  if t.type = "SWAP" then
    if 0 < t.profit then (acc.1, acc.2 + t.profit) else acc
  else if t.type = "SOL_TRANSFER" ∧ t.inTokens ≠ [] then
    (acc.1 + (t.inTokens.head?.getD ⟨"", 0, 0⟩).usdValue, acc.2)
  else acc

/-- The tax-summary reduction of `src/server/index.js` lines 417-437:
`totalFees` by `reduce`, income/gains by the `for` loop, then
`taxLiability = totalIncome * 0.37 + capitalGains * 0.20`. -/
def taxSummaryOf (txs : List ProcessedTx) : TaxSummary :=
  let totalFees := txs.foldl (fun s t => s + t.fees) 0
  let ig := txs.foldl incomeGainsStep (0, 0)
  { totalIncome := ig.1, capitalGains := ig.2, totalFees := totalFees,
    taxLiability := ig.1 * (37 / 100) + ig.2 * (20 / 100) }

/-- Per-event contribution to `totalIncome`. -/
def incomeContrib (t : ProcessedTx) : ℚ :=
  if t.type = "SWAP" then 0
  else if t.type = "SOL_TRANSFER" ∧ t.inTokens ≠ [] then
    (t.inTokens.head?.getD ⟨"", 0, 0⟩).usdValue
  else 0

/-- Per-event contribution to `capitalGains`. -/
def gainsContrib (t : ProcessedTx) : ℚ :=
  if t.type = "SWAP" then (if 0 < t.profit then t.profit else 0) else 0

theorem incomeGainsStep_eq (acc : ℚ × ℚ) (t : ProcessedTx) :
    incomeGainsStep acc t = (acc.1 + incomeContrib t, acc.2 + gainsContrib t) := by
  unfold incomeGainsStep incomeContrib gainsContrib
  split
  · split <;> simp
  · split <;> simp

theorem foldl_incomeGainsStep (txs : List ProcessedTx) (acc : ℚ × ℚ) :
    txs.foldl incomeGainsStep acc =
      (acc.1 + (txs.map incomeContrib).sum, acc.2 + (txs.map gainsContrib).sum) := by
  induction txs generalizing acc with
  | nil => simp
  | cons t ts ih =>
    simp only [List.foldl_cons, ih, incomeGainsStep_eq, List.map_cons, List.sum_cons,
      Prod.mk.injEq]
    constructor <;> ring

theorem foldl_fees (txs : List ProcessedTx) (a : ℚ) :
    txs.foldl (fun s t => s + t.fees) a = a + (txs.map (·.fees)).sum := by
  induction txs generalizing a with
  | nil => simp
  | cons t ts ih =>
    simp only [List.foldl_cons, ih, List.map_cons, List.sum_cons]
    ring

/-- Characterization of the tax-summary reduction: each field is a sum of
per-event contributions. -/
theorem taxSummaryOf_eq (txs : List ProcessedTx) :
    taxSummaryOf txs =
      { totalIncome := (txs.map incomeContrib).sum,
        capitalGains := (txs.map gainsContrib).sum,
        totalFees := (txs.map (·.fees)).sum,
        taxLiability := (txs.map incomeContrib).sum * (37 / 100) +
          (txs.map gainsContrib).sum * (20 / 100) } := by
  unfold taxSummaryOf
  simp [foldl_incomeGainsStep, foldl_fees]

/-- Claim C1: for every aggregated Tax Summary, `taxLiability` equals
`totalIncome * 0.37 + capitalGains * 0.20`, with both rates fixed constants
independent of the input events. -/
theorem C1_taxLiability_formula (txs : List ProcessedTx) :
    (taxSummaryOf txs).taxLiability =
      (taxSummaryOf txs).totalIncome * (37 / 100) +
        (taxSummaryOf txs).capitalGains * (20 / 100) := rfl

/-- Claim C2: aggregating any permutation of a sequence of classified events
yields an identical Tax Summary (all four fields equal). -/
theorem C2_aggregate_perm_invariant {l₁ l₂ : List ProcessedTx} (h : l₁.Perm l₂) :
    taxSummaryOf l₁ = taxSummaryOf l₂ := by
  rw [taxSummaryOf_eq, taxSummaryOf_eq,
    (h.map incomeContrib).sum_eq, (h.map gainsContrib).sum_eq,
    (h.map (·.fees)).sum_eq]

theorem C2_witness :
    (([⟨"a", 1, "SWAP", [], [], 1, 5⟩,
       ⟨"b", 2, "SOL_TRANSFER", [⟨"SOL", 1, 4⟩], [], 2, 0⟩] : List ProcessedTx).Perm
      [⟨"b", 2, "SOL_TRANSFER", [⟨"SOL", 1, 4⟩], [], 2, 0⟩,
       ⟨"a", 1, "SWAP", [], [], 1, 5⟩]) ∧
    taxSummaryOf [⟨"a", 1, "SWAP", [], [], 1, 5⟩,
       ⟨"b", 2, "SOL_TRANSFER", [⟨"SOL", 1, 4⟩], [], 2, 0⟩] =
      taxSummaryOf [⟨"b", 2, "SOL_TRANSFER", [⟨"SOL", 1, 4⟩], [], 2, 0⟩,
       ⟨"a", 1, "SWAP", [], [], 1, 5⟩] :=
  ⟨List.Perm.swap _ _ _, C2_aggregate_perm_invariant (List.Perm.swap _ _ _)⟩

/-- A SWAP event carrying a net loss. -/
def lossSwapTx : ProcessedTx := ⟨"loss", 10, "SWAP", [], [], 0, -5⟩

/-- Claim C3 counterexample: a SWAP event with profit `-5` leaves
`capitalGains` at `0`; the aggregation does not decrease it by the loss. -/
theorem C3_counterexample :
    lossSwapTx.type = "SWAP" ∧ lossSwapTx.profit = -5 ∧
    (taxSummaryOf [lossSwapTx]).capitalGains = 0 ∧
    (taxSummaryOf [lossSwapTx]).capitalGains ≠
      (taxSummaryOf []).capitalGains + lossSwapTx.profit := by
  refine ⟨rfl, rfl, ?_, ?_⟩ <;>
    norm_num [taxSummaryOf_eq, gainsContrib, lossSwapTx]

/-- Claim C3 (amended): appending a SWAP event adds its profit to
`capitalGains` only when the profit is positive; a loss leaves
`capitalGains` unchanged (floored at zero). -/
theorem C3_capitalGains_floored (txs : List ProcessedTx) (t : ProcessedTx)
    (h : t.type = "SWAP") :
    (taxSummaryOf (txs ++ [t])).capitalGains =
      (taxSummaryOf txs).capitalGains + (if 0 < t.profit then t.profit else 0) := by
  simp [taxSummaryOf_eq, gainsContrib, h]

theorem C3_witness :
    (⟨"gain", 1, "SWAP", [], [], 0, 7⟩ : ProcessedTx).type = "SWAP" ∧
    (taxSummaryOf ([] ++ [⟨"gain", 1, "SWAP", [], [], 0, 7⟩])).capitalGains =
      (taxSummaryOf []).capitalGains + (if 0 < (7 : ℚ) then (7 : ℚ) else 0) :=
  ⟨rfl, C3_capitalGains_floored [] ⟨"gain", 1, "SWAP", [], [], 0, 7⟩ rfl⟩

/-! ### Token holdings listing (`getTokenAccountsByOwner`, lines 151-188) -/

/-- A raw parsed token account as returned by the RPC
(`account.account.data.parsed.info`). -/
structure RawTokenAccount where
  mint : String
  amount : ℕ
  decimals : ℕ
  uiAmount : ℚ
deriving DecidableEq, Repr

/-- Resolved token metadata (`getTokenMetadata` result). -/
structure TokenMeta where
  symbol : String
  name : String
  decimals : ℕ
deriving DecidableEq, Repr

/-- An element of the holdings list built at
`src/server/index.js` lines 168-175. -/
structure TokenHolding where
  mint : String
  symbol : String
  name : String
  amount : ℕ
  decimals : ℕ
  uiAmount : ℚ
deriving DecidableEq, Repr

/-- The descending-`uiAmount` order implemented by the JS comparator
`(a, b) => b.uiAmount - a.uiAmount`. -/
def holdingGe (a b : TokenHolding) : Prop := b.uiAmount ≤ a.uiAmount

instance : DecidableRel holdingGe := fun a b =>
  inferInstanceAs (Decidable (b.uiAmount ≤ a.uiAmount))

instance : IsTotal TokenHolding holdingGe :=
  ⟨fun a b => le_total b.uiAmount a.uiAmount⟩

instance : IsTrans TokenHolding holdingGe :=
  ⟨fun _ _ _ h₁ h₂ => le_trans h₂ h₁⟩

/-- `getTokenAccountsByOwner` (`src/server/index.js` lines 151-188): keep
accounts with positive `uiAmount`, attach metadata, sort by `uiAmount`
descending; any error in the listing yields `[]` (the `catch` branch),
modelled by a `none` input. -/
def getTokenAccountsByOwner (resolveMeta : String → TokenMeta) :
    Option (List RawTokenAccount) → List TokenHolding
  | none => []
  | some accounts =>
    let processed := accounts.filterMap fun a =>
      if 0 < a.uiAmount then
        let m := resolveMeta a.mint
        some ⟨a.mint, m.symbol, m.name, a.amount, a.decimals, a.uiAmount⟩
      else none
    processed.insertionSort holdingGe

/-- Claim C10: every holdings list contains only strictly positive balances,
is sorted in non-increasing `uiAmount` order, and an error during the
listing yields the empty list. -/
theorem C10_token_accounts (resolveMeta : String → TokenMeta)
    (input : Option (List RawTokenAccount)) :
    (∀ x ∈ getTokenAccountsByOwner resolveMeta input, 0 < x.uiAmount) ∧
    (getTokenAccountsByOwner resolveMeta input).Pairwise holdingGe ∧
    (input = none → getTokenAccountsByOwner resolveMeta input = []) := by
  refine ⟨?_, ?_, ?_⟩
  · intro x hx
    cases input with
    | none => simp [getTokenAccountsByOwner] at hx
    | some accounts =>
      simp only [getTokenAccountsByOwner, List.mem_insertionSort,
        List.mem_filterMap] at hx
      obtain ⟨a, -, ha⟩ := hx
      by_cases h : 0 < a.uiAmount
      · simp only [if_pos h, Option.some.injEq] at ha
        cases ha
        exact h
      · simp [if_neg h] at ha
  · cases input with
    | none => simp [getTokenAccountsByOwner]
    | some accounts => exact List.sorted_insertionSort holdingGe _
  · intro h
    subst h
    rfl

theorem C10_witness :
    (0 : ℚ) <
      (⟨"mintA", "SYM", "Token", 5, 2, (3 : ℚ)⟩ : TokenHolding).uiAmount ∧
    getTokenAccountsByOwner (fun _ => ⟨"SYM", "Token", 9⟩) none = [] :=
  ⟨(C10_token_accounts (fun _ => ⟨"SYM", "Token", 9⟩)
        (some [⟨"mintA", 5, 2, (3 : ℚ)⟩])).1
      ⟨"mintA", "SYM", "Token", 5, 2, (3 : ℚ)⟩ (by
        simp [getTokenAccountsByOwner]),
    (C10_token_accounts (fun _ => ⟨"SYM", "Token", 9⟩) none).2.2 rfl⟩

/-! ### The `/api/transactions/:address` endpoint (lines 295-454) -/

/-- External calls issued by the endpoint, in program order. -/
inductive NetCall
  | getBalance
  | getSolPrice
  | getTokenAccounts
  | getSignatures
  | getParsedTransaction (sig : String)
deriving DecidableEq, Repr

/-- The typed failure of the endpoint's validation gate
(`res.status(400).json({error: 'Invalid Solana address'})`). -/
inductive QueryError
  | invalidInput
deriving DecidableEq, Repr

/-- The JSON success body (`src/server/index.js` lines 439-445). -/
structure QueryResponse where
  balance : ℚ
  tokenAccounts : List TokenHolding
  transactions : List ProcessedTx
  taxSummary : TaxSummary
deriving DecidableEq, Repr

/-- The upstream world one query observes: whether the address parses as a
`PublicKey`, and the results of each RPC/price call.  `fetchTx s = none`
models both `getParsedTransaction` returning `null` and it throwing (the
per-signature `try`/`catch`). -/
structure QueryEnv where
  validKey : String → Bool
  balance : ℤ
  solPrice : ℚ
  rawTokenAccounts : Option (List RawTokenAccount)
  resolveMeta : String → TokenMeta
  signatures : List String
  fetchTx : String → Option ServerTx
  now : ℕ

/-- The signature-processing `for` loop (`src/server/index.js` lines
329-415): fetch each signature's record, skip it when the fetch returns
nothing or throws, otherwise append the processed event. -/
def processLoop (fetch : String → Option ServerTx)
    (process : String → ServerTx → ProcessedTx) (sigs : List String) :
    List ProcessedTx :=
  sigs.foldl
    (fun acc s =>
      match fetch s with
      | none => acc
      | some tx => acc ++ [process s tx])
    []

theorem processLoop_eq (fetch : String → Option ServerTx)
    (process : String → ServerTx → ProcessedTx) (sigs : List String) :
    processLoop fetch process sigs =
      sigs.filterMap fun s => (fetch s).map (process s) := by
  suffices h : ∀ acc, sigs.foldl
      (fun acc s =>
        match fetch s with
        | none => acc
        | some tx => acc ++ [process s tx])
      acc = acc ++ sigs.filterMap fun s => (fetch s).map (process s) by
    simpa [processLoop] using h []
  induction sigs with
  | nil => simp
  | cons s ss ih =>
    intro acc
    cases h : fetch s <;> simp [h, ih]

/-- The endpoint handler (`src/server/index.js` lines 295-454): validate
the address before any network call, then fetch balance, price, holdings
and signatures, process each signature and aggregate.  The second component
is the trace of external calls issued. -/
def handleTransactions (env : QueryEnv) (addr : String) :
    Except QueryError QueryResponse × List NetCall :=
  if env.validKey addr then
    let txs := processLoop env.fetchTx
      (processServerTx env.solPrice env.now) env.signatures
    (Except.ok
      { balance := (env.balance : ℚ) / 1000000000,
        tokenAccounts := getTokenAccountsByOwner env.resolveMeta env.rawTokenAccounts,
        transactions := txs,
        taxSummary := taxSummaryOf txs },
     [NetCall.getBalance, NetCall.getSolPrice, NetCall.getTokenAccounts,
       NetCall.getSignatures] ++ env.signatures.map NetCall.getParsedTransaction)
  else (Except.error QueryError.invalidInput, [])

/-- Claim C5: an address that does not decode to a valid public key is
rejected with the InvalidInput (400) response immediately, with an empty
trace of external calls (hence zero network calls and zero retries). -/
theorem C5_invalid_address_no_network (env : QueryEnv) (addr : String)
    (h : env.validKey addr = false) :
    handleTransactions env addr = (Except.error QueryError.invalidInput, []) := by
  simp [handleTransactions, h]

theorem C5_witness :
    ({ validKey := fun _ => false, balance := 7, solPrice := 2,
       rawTokenAccounts := none, resolveMeta := fun _ => ⟨"S", "N", 9⟩,
       signatures := ["sig1"], fetchTx := fun _ => none,
       now := 0 } : QueryEnv).validKey "bad-address" = false ∧
    handleTransactions
      { validKey := fun _ => false, balance := 7, solPrice := 2,
        rawTokenAccounts := none, resolveMeta := fun _ => ⟨"S", "N", 9⟩,
        signatures := ["sig1"], fetchTx := fun _ => none, now := 0 }
      "bad-address" = (Except.error QueryError.invalidInput, []) :=
  ⟨rfl, C5_invalid_address_no_network _ "bad-address" rfl⟩

/-- Claim C6: when the full-record fetch of some signatures returns nothing
(or throws), those records are skipped and the query still succeeds: the
response's transactions are exactly the successfully fetched records, and
the aggregation runs over those alone. -/
theorem C6_missing_records_skipped (env : QueryEnv) (addr : String)
    (h : env.validKey addr = true) :
    ∃ resp, (handleTransactions env addr).1 = Except.ok resp ∧
      resp.transactions = env.signatures.filterMap
        (fun s => (env.fetchTx s).map (processServerTx env.solPrice env.now s)) ∧
      resp.taxSummary = taxSummaryOf resp.transactions := by
  refine ⟨⟨(env.balance : ℚ) / 1000000000,
      getTokenAccountsByOwner env.resolveMeta env.rawTokenAccounts,
      processLoop env.fetchTx (processServerTx env.solPrice env.now) env.signatures,
      taxSummaryOf (processLoop env.fetchTx
        (processServerTx env.solPrice env.now) env.signatures)⟩, ?_, ?_, rfl⟩
  · simp [handleTransactions, h]
  · simp [processLoop_eq]

/-- An upstream world in which signature `"a"` has no fetchable record and
signature `"b"` resolves to a plain transaction. -/
def c6Env : QueryEnv :=
  { validKey := fun _ => true, balance := 5, solPrice := 2,
    rawTokenAccounts := none, resolveMeta := fun _ => ⟨"S", "N", 9⟩,
    signatures := ["a", "b"],
    fetchTx := fun s =>
      if s = "b" then
        some ⟨some 11, 5000, [3], [3], [], [], []⟩
      else none,
    now := 0 }

theorem C6_witness :
    c6Env.validKey "wallet" = true ∧
    ∃ resp, (handleTransactions c6Env "wallet").1 = Except.ok resp ∧
      resp.transactions = c6Env.signatures.filterMap
        (fun s => (c6Env.fetchTx s).map (processServerTx c6Env.solPrice c6Env.now s)) ∧
      resp.taxSummary = taxSummaryOf resp.transactions :=
  ⟨rfl, C6_missing_records_skipped c6Env "wallet" rfl⟩

/-- A swap-flagged transaction whose native balance of account position 0
rises by 2 SOL while every token flow carries fiat value 0
(`usdValue: 0` at `src/server/index.js` lines 364 and 375). -/
def c9SwapTx : ServerTx :=
  { blockTime := some 50, fee := 5000,
    preBalances := [10000000000], postBalances := [12000000000],
    preTokenBalances := [], postTokenBalances := [],
    innerInstructions := [[⟨"spl-token", some "transfer"⟩]] }

/-- Claim C9 counterexample: the endpoint classifies `c9SwapTx` as SWAP and
sets `profit = solChange * solPrice = 6`, while the inflow-minus-outflow
fiat sum is `0` — profit is not the difference of the flows' fiat values. -/
theorem C9_counterexample :
    (processServerTx 3 0 "sig" c9SwapTx).type = "SWAP" ∧
    (processServerTx 3 0 "sig" c9SwapTx).profit = 6 ∧
    ((processServerTx 3 0 "sig" c9SwapTx).inTokens.map (·.usdValue)).sum -
      ((processServerTx 3 0 "sig" c9SwapTx).outTokens.map (·.usdValue)).sum = 0 ∧
    (processServerTx 3 0 "sig" c9SwapTx).profit ≠
      ((processServerTx 3 0 "sig" c9SwapTx).inTokens.map (·.usdValue)).sum -
        ((processServerTx 3 0 "sig" c9SwapTx).outTokens.map (·.usdValue)).sum := by
  refine ⟨rfl, ?_, ?_, ?_⟩ <;>
    norm_num [processServerTx, c9SwapTx, isInnerSwap]

/-! ### The standalone classifier `analyzeTransaction` (lines 190-288) -/

/-- A top-level instruction, carrying only the field the classifier reads
(`ix.programId?.toBase58()`). -/
structure Instruction where
  programId : Option String
deriving DecidableEq, Repr

/-- The fields of a parsed transaction read by `analyzeTransaction`. -/
structure AnalyzedTxInput where
  accountKeys : List String
  instructions : List Instruction
  blockTime : Option ℕ
  fee : ℕ
  preBalances : List ℤ
  postBalances : List ℤ
  preTokenBalances : List TokenBalance
  postTokenBalances : List TokenBalance
deriving DecidableEq, Repr

/-- The result object of `analyzeTransaction`
(`src/server/index.js` lines 191-199). -/
structure AnalyzeResult where
  type : String
  inTokens : List TokenFlow
  outTokens : List TokenFlow
  fees : ℚ
  profit : ℚ
  timestamp : Option ℕ
deriving DecidableEq, Repr

/-- `Object.values(DEX_PROGRAMS)` (`src/server/index.js` lines 13-17). -/
def DEX_PROGRAM_IDS : List String :=
  ["RaydiumV2", "whirLbMiicVdio4qvUfM5KAg6Ct8VwpYzGff3uctyCc",
   "JUP4Fb2cqiRUcaTHdrPC8h2gNsA2ETXiPDD33WcGuJB"]

/-- The DEX check (`src/server/index.js` lines 210-212). -/
def isDexTx (tx : AnalyzedTxInput) : Bool :=
  tx.instructions.any fun ix =>
    match ix.programId with
    | some p => DEX_PROGRAM_IDS.contains p
    | none => false

/-- `analyzeTransaction` (`src/server/index.js` lines 190-288).  `price`
and `solPrice` stand for `getTokenPrice` and the SOL price.  The JS `zip`
helper pairs pre/post token balances by position and skips a pair whose
second component is missing, which coincides with `List.zip`. -/
def analyzeTransaction (tx : AnalyzedTxInput) (walletAddress : String)
    (price : String → ℚ) (solPrice : ℚ) : AnalyzeResult :=
  let fees : ℚ :=
    if tx.fee ≠ 0 ∧ walletAddress ∈ tx.accountKeys then (tx.fee : ℚ) / 1000000000
    else 0
  if isDexTx tx then
    let pairs := tx.preTokenBalances.zip tx.postTokenBalances
    let inTokens := pairs.filterMap fun pq =>
      let change := pq.2.uiAmount - pq.1.uiAmount
      if 0 < change then some ⟨pq.2.mint, change, |change * price pq.2.mint|⟩
      else none
    let outTokens := pairs.filterMap fun pq =>
      let change := pq.2.uiAmount - pq.1.uiAmount
      if change < 0 then some ⟨pq.2.mint, -change, |change * price pq.2.mint|⟩
      else none
    let profit := (inTokens.map (·.usdValue)).sum - (outTokens.map (·.usdValue)).sum
    ⟨"SWAP", inTokens, outTokens, fees, profit, tx.blockTime⟩
  else if 0 < tx.preTokenBalances.length ∨ 0 < tx.postTokenBalances.length then
    ⟨"TRANSFER", [], [], fees, 0, tx.blockTime⟩
  else
    match tx.accountKeys.findIdx? (fun k => k == walletAddress) with
    | none => ⟨"UNKNOWN", [], [], fees, 0, tx.blockTime⟩
    | some i =>
      match tx.preBalances.get? i, tx.postBalances.get? i with
      | some pre, some post =>
        let solChange : ℚ := ((post - pre : ℤ) : ℚ) / 1000000000
        if 0 < solChange then
          ⟨"SOL_TRANSFER", [⟨"SOL", solChange, |solChange * solPrice|⟩], [],
            fees, 0, tx.blockTime⟩
        else if solChange < 0 then
          ⟨"SOL_TRANSFER", [], [⟨"SOL", -solChange, |solChange * solPrice|⟩],
            fees, 0, tx.blockTime⟩
        else ⟨"UNKNOWN", [], [], fees, 0, tx.blockTime⟩
      | _, _ => ⟨"UNKNOWN", [], [], fees, 0, tx.blockTime⟩

/-- The queried wallet's native balance does not change in the record
(or the wallet has no resolvable position). -/
def nativeDeltaZero (tx : AnalyzedTxInput) (w : String) : Bool :=
  match tx.accountKeys.findIdx? (fun k => k == w) with
  | none => true
  | some i =>
    match tx.preBalances.get? i, tx.postBalances.get? i with
    | some a, some b => a == b
    | _, _ => true

/-- Nothing at all changes in the record: native balances and token
balances are identical before and after. -/
def noBalanceDeltasAtAll (tx : AnalyzedTxInput) : Bool :=
  tx.preBalances == tx.postBalances && tx.preTokenBalances == tx.postTokenBalances

/-- A record in which no balance moves for anyone — in particular not for
the queried wallet — but whose token-balance lists are non-empty. -/
def c4tx : AnalyzedTxInput :=
  { accountKeys := ["wallet", "other"], instructions := [],
    blockTime := some 100, fee := 5000,
    preBalances := [7, 9], postBalances := [7, 9],
    preTokenBalances := [⟨1, "mintA", 3⟩], postTokenBalances := [⟨1, "mintA", 3⟩] }

/-- Claim C4 counterexample: a record with no balance deltas whatsoever for
the queried account is classified TRANSFER, not UNKNOWN, because its
token-balance lists are non-empty. -/
theorem C4_counterexample :
    noBalanceDeltasAtAll c4tx = true ∧
    (analyzeTransaction c4tx "wallet" (fun _ => 1) 1).type = "TRANSFER" ∧
    (analyzeTransaction c4tx "wallet" (fun _ => 1) 1).type ≠ "UNKNOWN" := by
  refine ⟨rfl, rfl, ?_⟩
  decide

/-- Claim C4 (amended): a non-DEX record with no token-balance entries and
no native delta for the queried account is classified UNKNOWN with empty
inflow and outflow lists, and when the queried account is the fee payer
(first account position) the event's fee equals the record's fee in
native display units. -/
theorem C4_no_deltas_unknown (tx : AnalyzedTxInput) (w : String)
    (price : String → ℚ) (solPrice : ℚ)
    (hdex : isDexTx tx = false)
    (hpre : tx.preTokenBalances = []) (hpost : tx.postTokenBalances = [])
    (hnat : nativeDeltaZero tx w = true) :
    (analyzeTransaction tx w price solPrice).type = "UNKNOWN" ∧
    (analyzeTransaction tx w price solPrice).inTokens = [] ∧
    (analyzeTransaction tx w price solPrice).outTokens = [] ∧
    (tx.accountKeys.head? = some w →
      (analyzeTransaction tx w price solPrice).fees = (tx.fee : ℚ) / 1000000000) := by
  have hfee : tx.accountKeys.head? = some w →
      (if tx.fee ≠ 0 ∧ w ∈ tx.accountKeys then (tx.fee : ℚ) / 1000000000 else 0) =
        (tx.fee : ℚ) / 1000000000 := by
    intro hw
    have hmem : w ∈ tx.accountKeys := List.mem_of_mem_head? hw
    by_cases hf : tx.fee = 0
    · simp [hf]
    · simp [hf, hmem]
  have hmain : analyzeTransaction tx w price solPrice =
      ⟨"UNKNOWN", [], [],
        (if tx.fee ≠ 0 ∧ w ∈ tx.accountKeys then (tx.fee : ℚ) / 1000000000 else 0),
        0, tx.blockTime⟩ := by
    unfold analyzeTransaction
    rw [hdex]
    simp only [Bool.false_eq_true, if_false, hpre, hpost, List.length_nil,
      lt_self_iff_false, or_self]
    unfold nativeDeltaZero at hnat
    cases hidx : tx.accountKeys.findIdx? (fun k => k == w) with
    | none => rfl
    | some i =>
      rw [hidx] at hnat
      dsimp only at hnat
      dsimp only
      cases hpreb : tx.preBalances.get? i with
      | none =>
        rfl
      | some a =>
        cases hpostb : tx.postBalances.get? i with
        | none => rfl
        | some b =>
          rw [hpreb, hpostb] at hnat
          have hab : a = b := by simpa using hnat
          subst hab
          have hz : ¬ ((0 : ℚ) < ((a - a : ℤ) : ℚ) / 1000000000) := by simp
          have hz' : ¬ (((a - a : ℤ) : ℚ) / 1000000000 < 0) := by simp
          simp only [if_neg hz, if_neg hz']
  rw [hmain]
  exact ⟨rfl, rfl, rfl, fun hw => hfee hw⟩

/-- A fee-paying record with empty balance lists, queried by its fee
payer. -/
def c4plainTx : AnalyzedTxInput :=
  { accountKeys := ["payer", "other"], instructions := [],
    blockTime := some 5, fee := 5000,
    preBalances := [2, 2], postBalances := [2, 2],
    preTokenBalances := [], postTokenBalances := [] }

theorem C4_witness :
    (analyzeTransaction c4plainTx "payer" (fun _ => 1) 1).type = "UNKNOWN" ∧
    (analyzeTransaction c4plainTx "payer" (fun _ => 1) 1).inTokens = [] ∧
    (analyzeTransaction c4plainTx "payer" (fun _ => 1) 1).outTokens = [] ∧
    (c4plainTx.accountKeys.head? = some "payer" →
      (analyzeTransaction c4plainTx "payer" (fun _ => 1) 1).fees =
        (c4plainTx.fee : ℚ) / 1000000000) :=
  C4_no_deltas_unknown c4plainTx "payer" (fun _ => 1) 1 rfl rfl rfl rfl

/-- Claim C9 (amended): for events produced by `analyzeTransaction`, a
DEX-flagged record is classified SWAP and its profit equals the sum of the
inflows' fiat values minus the sum of the outflows' fiat values, stored
signed; the endpoint's inline swap path instead prices profit from the
native delta of account position 0 (see `C9_counterexample`). -/
theorem C9_analyze_profit (tx : AnalyzedTxInput) (w : String)
    (price : String → ℚ) (solPrice : ℚ) (h : isDexTx tx = true) :
    (analyzeTransaction tx w price solPrice).type = "SWAP" ∧
    (analyzeTransaction tx w price solPrice).profit =
      ((analyzeTransaction tx w price solPrice).inTokens.map (·.usdValue)).sum -
        ((analyzeTransaction tx w price solPrice).outTokens.map (·.usdValue)).sum := by
  unfold analyzeTransaction
  rw [h]
  exact ⟨rfl, rfl⟩

/-- A DEX swap record: 2 units of `mintA` out, 10 of `mintB` in. -/
def c9DexTx : AnalyzedTxInput :=
  { accountKeys := ["wallet"], instructions := [⟨some "RaydiumV2"⟩],
    blockTime := some 9, fee := 5000,
    preBalances := [4], postBalances := [4],
    preTokenBalances := [⟨1, "mintA", 5⟩, ⟨2, "mintB", 0⟩],
    postTokenBalances := [⟨1, "mintA", 3⟩, ⟨2, "mintB", 10⟩] }

theorem C9_witness :
    isDexTx c9DexTx = true ∧
    (analyzeTransaction c9DexTx "wallet" (fun _ => 1) 1).type = "SWAP" ∧
    (analyzeTransaction c9DexTx "wallet" (fun _ => 1) 1).profit =
      ((analyzeTransaction c9DexTx "wallet" (fun _ => 1) 1).inTokens.map
        (·.usdValue)).sum -
        ((analyzeTransaction c9DexTx "wallet" (fun _ => 1) 1).outTokens.map
          (·.usdValue)).sum :=
  ⟨rfl, C9_analyze_profit c9DexTx "wallet" (fun _ => 1) 1 rfl⟩

/-! ### The TTL price cache of the variant server (`src/unnamed/part_001`,
lines 31-67) -/

/-- A price-cache entry `{price, timestamp}`. -/
structure CacheEntry where
  price : ℚ
  timestamp : ℕ
deriving DecidableEq, Repr

/-- `const CACHE_DURATION = 5 * 60 * 1000` (milliseconds). -/
def CACHE_DURATION : ℕ := 5 * 60 * 1000

/-- `getTokenPrice` of `src/unnamed/part_001` lines 42-67.  `mapping` is
the `tokenMapping` table, `fetchPrice` the CoinGecko market-data call
(`none` models a thrown error).  Returns the price, the updated cache and
the number of external price-source calls made (0 or 1).  A miss with no
CoinGecko id throws before the external call and is caught, returning `0`
without caching; a failed fetch likewise returns `0` without caching. -/
def getTokenPrice001 (mapping : String → Option String)
    (fetchPrice : String → Option ℚ) (cache : List (String × CacheEntry))
    (now : ℕ) (mint : String) : ℚ × List (String × CacheEntry) × ℕ :=
  let onMiss :=
    match mapping mint with
    | none => (0, cache, 0)
    | some coingeckoId =>
      match fetchPrice coingeckoId with
      | some price => (price, (mint, ⟨price, now⟩) :: cache, 1)
      | none => (0, cache, 1)
  match cache.lookup mint with
  | some cached =>
    if now - cached.timestamp < CACHE_DURATION then (cached.price, cache, 0)
    else onMiss
  | none => onMiss

/-- Claim C7: after a first miss populates the cache, a second lookup for
the same asset within the TTL window returns the identical cached price
with zero external calls; a lookup at or after TTL expiry treats the entry
as absent and performs exactly one external call, refreshing the entry. -/
theorem C7_price_cache_ttl (mapping : String → Option String)
    (fetchPrice : String → Option ℚ) (cache : List (String × CacheEntry))
    (mint coingeckoId : String) (p : ℚ) (t tIn tOut : ℕ)
    (hmap : mapping mint = some coingeckoId)
    (hfetch : fetchPrice coingeckoId = some p)
    (hmiss : cache.lookup mint = none)
    (hwithin : tIn - t < CACHE_DURATION)
    (hexpired : CACHE_DURATION ≤ tOut - t) :
    getTokenPrice001 mapping fetchPrice cache t mint =
      (p, (mint, ⟨p, t⟩) :: cache, 1) ∧
    getTokenPrice001 mapping fetchPrice ((mint, ⟨p, t⟩) :: cache) tIn mint =
      (p, (mint, ⟨p, t⟩) :: cache, 0) ∧
    getTokenPrice001 mapping fetchPrice ((mint, ⟨p, t⟩) :: cache) tOut mint =
      (p, (mint, ⟨p, tOut⟩) :: (mint, ⟨p, t⟩) :: cache, 1) := by
  refine ⟨?_, ?_, ?_⟩
  · simp [getTokenPrice001, hmiss, hmap, hfetch]
  · simp [getTokenPrice001, List.lookup, hwithin]
  · simp [getTokenPrice001, List.lookup, not_lt.mpr hexpired, hmap, hfetch]

theorem C7_witness :
    ((fun _ : String => some "solana") "SOL" = some "solana") ∧
    ((fun _ : String => some (7 : ℚ)) "solana" = some (7 : ℚ)) ∧
    getTokenPrice001 (fun _ => some "solana") (fun _ => some 7) [] 0 "SOL" =
      (7, [("SOL", ⟨7, 0⟩)], 1) ∧
    getTokenPrice001 (fun _ => some "solana") (fun _ => some 7)
      [("SOL", ⟨7, 0⟩)] 1000 "SOL" = (7, [("SOL", ⟨7, 0⟩)], 0) ∧
    getTokenPrice001 (fun _ => some "solana") (fun _ => some 7)
      [("SOL", ⟨7, 0⟩)] 300000 "SOL" =
      (7, [("SOL", ⟨7, 300000⟩), ("SOL", ⟨7, 0⟩)], 1) := by
  have h := C7_price_cache_ttl (fun _ => some "solana") (fun _ => some 7) []
    "SOL" "solana" 7 0 1000 300000 rfl rfl rfl (by decide) (by decide)
  exact ⟨rfl, rfl, h.1, h.2.1, h.2.2⟩

/-! ### Bounded retry with increasing delay (`src/unnamed/part_002`) -/

/-- `const MAX_RETRIES = 3` (`src/unnamed/part_002` line 17). -/
def MAX_RETRIES : ℕ := 3

/-- The retry loop shared by the balance fetch (lines 114-133) and the
signature-batch fetch (lines 239-285) of `src/unnamed/part_002`:
`while (retries < MAX_RETRIES) { try {...; break} catch { retries++;
if (retries === MAX_RETRIES) fail; await sleep(1000 * retries) } }`.
`fetch n` is the n-th attempt (`none` = thrown error); the result carries
the value (if any), the number of attempts made, and the list of sleep
delays in milliseconds.  The fuel argument equals the remaining loop
iterations permitted by the guard. -/
def retryFetch {α : Type} (fetch : ℕ → Option α) :
    ℕ → ℕ → List ℕ → Option α × ℕ × List ℕ
  | retries, 0, delays => (none, retries, delays)
  | retries, fuel + 1, delays =>
    match fetch retries with
    | some v => (some v, retries + 1, delays)
    | none =>
      if retries + 1 = MAX_RETRIES then (none, retries + 1, delays)
      else retryFetch fetch (retries + 1) fuel (delays ++ [1000 * (retries + 1)])

/-- The SOL-balance fetch with retry (`src/unnamed/part_002` lines
114-133); exhaustion returns the 500-class `Failed to fetch SOL balance`
response, aborting the query. -/
def fetchBalanceWithRetry (fetch : ℕ → Option ℤ) :
    Except String ℤ × ℕ × List ℕ :=
  match retryFetch fetch 0 MAX_RETRIES [] with
  | (some v, n, d) => (Except.ok v, n, d)
  | (none, n, d) => (Except.error "Failed to fetch SOL balance", n, d)

/-- The signature-listing fetch with retry (`src/unnamed/part_002` lines
239-285); exhaustion throws `Failed to fetch transactions`, which the
endpoint converts into a 500-class response, aborting the query. -/
def fetchSignaturesWithRetry (fetch : ℕ → Option (List String)) :
    Except String (List String) × ℕ × List ℕ :=
  match retryFetch fetch 0 MAX_RETRIES [] with
  | (some v, n, d) => (Except.ok v, n, d)
  | (none, n, d) => (Except.error "Failed to fetch transactions", n, d)

/-- Claim C8: when the upstream fails on every attempt, both the balance
fetch and the reference listing make exactly `MAX_RETRIES = 3` attempts,
sleep the strictly increasing delays `[1000, 2000]` between consecutive
attempts, and then abort the query with the typed upstream-failure
error. -/
theorem C8_retry_exhaustion (fetchBal : ℕ → Option ℤ)
    (fetchSigs : ℕ → Option (List String))
    (hb : ∀ n, fetchBal n = none) (hs : ∀ n, fetchSigs n = none) :
    fetchBalanceWithRetry fetchBal =
      (Except.error "Failed to fetch SOL balance", 3, [1000, 2000]) ∧
    fetchSignaturesWithRetry fetchSigs =
      (Except.error "Failed to fetch transactions", 3, [1000, 2000]) ∧
    List.Chain' (· < ·) [1000, 2000] := by
  have hrb : retryFetch fetchBal 0 MAX_RETRIES [] = (none, 3, [1000, 2000]) := by
    simp [retryFetch, MAX_RETRIES, hb 0, hb 1, hb 2]
  have hrs : retryFetch fetchSigs 0 MAX_RETRIES [] = (none, 3, [1000, 2000]) := by
    simp [retryFetch, MAX_RETRIES, hs 0, hs 1, hs 2]
  refine ⟨?_, ?_, ?_⟩
  · simp [fetchBalanceWithRetry, hrb]
  · simp [fetchSignaturesWithRetry, hrs]
  · simp

theorem C8_witness :
    fetchBalanceWithRetry (fun _ => none) =
      (Except.error "Failed to fetch SOL balance", 3, [1000, 2000]) ∧
    fetchSignaturesWithRetry (fun _ => none) =
      (Except.error "Failed to fetch transactions", 3, [1000, 2000]) ∧
    List.Chain' (· < ·) [1000, 2000] :=
  C8_retry_exhaustion (fun _ => none) (fun _ => none)
    (fun _ => rfl) (fun _ => rfl)

end Taxbot
